import Mathlib

/-!
Verification of the study-planner engine of the personalized learning
companion (files `app/scheduler_service.py`, `app/roadmap_service.py`,
`app/db.py`).

The Python code is shallowly embedded below:

* money-free numeric quantities (`daily_hours`, allocations, scores) are
  exact rationals `ℚ`; Python's `round` (banker's rounding, half to even)
  is `py_round`.  On every value any theorem below evaluates, IEEE-754
  double evaluation and exact rational evaluation agree.
* calendar dates are integers counting days from a fixed Monday epoch, so
  Python's `date.weekday()` (Monday = 0 … Sunday = 6) is `d % 7`;
  a "HH:MM" time-of-day string is its minutes-since-midnight value, the
  number `_time_to_minutes` assigns to it (the code compares times only
  through `_time_to_minutes`, and sorting "HH:MM"/ISO-date strings
  lexicographically orders them exactly like these numbers).
* Python dicts keyed by subject name are association lists with
  `dict_insert` (update-in-place on an existing key, append otherwise),
  which matches the insertion-order semantics of `dict`.
* the busy windows (`college_start`/`college_end`, `work_start`/`work_end`)
  are modelled as optional (start, end) pairs: the code treats a window as
  configured when both ends are present.
-/

/-- Python's built-in `round` to an integer: round half to even. -/
def py_round (q : ℚ) : ℤ :=
  let f := ⌊q⌋
  let r := q - f
  if r < 1/2 then f
  else if 1/2 < r then f + 1
  else if f % 2 = 0 then f else f + 1

/-- Python's `round(x, 2)`. -/
def round2 (q : ℚ) : ℚ := (py_round (q * 100) : ℚ) / 100

/-- Python's `round(x, 1)`. -/
def round1 (q : ℚ) : ℚ := (py_round (q * 10) : ℚ) / 10

/-- Insert into a Python dict viewed as an association list: an existing
key keeps its position and gets the new value, a new key is appended. -/
def dict_insert {α : Type} (l : List (String × α)) (k : String) (v : α) :
    List (String × α) :=
  match l with
  | [] => [(k, v)]
  | (k', v') :: rest =>
    if k' = k then (k, v) :: rest else (k', v') :: dict_insert rest k v

/-- `d.get(k)` on a Python dict viewed as an association list. -/
def assoc_lookup {α : Type} (l : List (String × α)) (k : String) : Option α :=
  match l with
  | [] => none
  | (k', v) :: rest => if k' = k then some v else assoc_lookup rest k

namespace StudySched

/-- A subject row as consumed by `StudyScheduler` and
`calculate_readiness_score` (`subject_name`, `weight`,
`performance_score`). -/
structure Subject where
  subject_name : String
  weight : ℤ
  performance_score : ℚ
deriving DecidableEq, Repr

/-- User configuration (`daily_hours`, optional college and work busy
windows given in minutes since midnight). -/
structure UserConfig where
  daily_hours : ℚ
  college : Option (ℕ × ℕ)
  work : Option (ℕ × ℕ)
deriving DecidableEq, Repr

/-- One performance-log row (fields of `performance_data` read by the
scheduler; a missing `mock_score` is the falsy `0`, exactly how
`p.get("mock_score")` treats it). -/
structure PerfLog where
  subject : String
  mock_score : ℚ
  tasks_total : ℕ
  tasks_completed : ℕ
deriving DecidableEq, Repr

/-- A generated task dictionary (`date`, `time`, `subject`, `topic`,
`type`, `duration_minutes`). -/
structure Task where
  date : ℤ
  time : ℕ
  subject : String
  topic : String
  type : String
  duration_minutes : ℕ
deriving DecidableEq, Repr

/-- `MAX_DAILY_HOURS = 4`. -/
def MAX_DAILY_HOURS : ℚ := 4

/-- `DEFAULT_SESSION_DURATION = 60`. -/
def DEFAULT_SESSION_DURATION : ℕ := 60

/-- `DEFAULT_STUDY_SLOTS`, with "HH:MM" strings as minutes since
midnight: 06:00–08:00, 14:00–16:00, 18:00–20:00, 20:00–22:00. -/
def DEFAULT_STUDY_SLOTS : List (ℕ × ℕ) :=
  [(360, 480), (840, 960), (1080, 1200), (1200, 1320)]

/-- `self.daily_hours = min(user_config.get("daily_hours", 3.0), MAX_DAILY_HOURS)`. -/
def clamped_daily_hours (cfg : UserConfig) : ℚ :=
  min cfg.daily_hours MAX_DAILY_HOURS

/-- `calculate_weekly_hours`. -/
def calculate_weekly_hours (cfg : UserConfig) : ℚ :=
  clamped_daily_hours cfg * 5 +
    min (clamped_daily_hours cfg * (15/10)) MAX_DAILY_HOURS * 2

/-- `_slots_overlap`: half-open interval overlap `s1 < e2 and s2 < e1`. -/
def slots_overlap (s1 e1 s2 e2 : ℕ) : Bool :=
  decide (s1 < e2) && decide (s2 < e1)

/-- `get_available_slots`: the four default windows, filtered against the
college window (weekdays only) and the work window (any day), with the
20:00–22:00 fallback when everything is filtered out.  When neither busy
window is configured the defaults are returned unfiltered. -/
def get_available_slots (cfg : UserConfig) (day_date : ℤ) : List (ℕ × ℕ) :=
  let is_weekend : Bool := decide (5 ≤ day_date % 7)
  if cfg.college = none ∧ cfg.work = none then DEFAULT_STUDY_SLOTS
  else
    let available_slots := DEFAULT_STUDY_SLOTS.filter fun s =>
      let college_blocks :=
        !is_weekend &&
          (match cfg.college with
           | some (cs, ce) => slots_overlap s.1 s.2 cs ce
           | none => false)
      let work_blocks :=
        match cfg.work with
        | some (ws, we) => slots_overlap s.1 s.2 ws we
        | none => false
      !(college_blocks || work_blocks)
    if available_slots.isEmpty then [(1200, 1320)] else available_slots

/-- `sum(s["weight"] for s in self.subjects)`. -/
def total_weight (subjects : List Subject) : ℤ :=
  (subjects.map (·.weight)).sum

/-- `distribute_hours`: weekly study pool (weekly hours minus 15%
revision reserve minus 1.5 mock-test hours) split across subjects
proportionally to weight, rounded to 2 decimals; 0 when the total weight
is not positive. -/
def distribute_hours (cfg : UserConfig) (subjects : List Subject) :
    List (String × ℚ) :=
  let total_weekly_hours := calculate_weekly_hours cfg
  let revision_hours := total_weekly_hours * (15/100)
  let mock_test_hours : ℚ := 3/2
  let study_hours := total_weekly_hours - revision_hours - mock_test_hours
  let tw := total_weight subjects
  subjects.foldl
    (fun allocation subject =>
      if 0 < tw then
        dict_insert allocation subject.subject_name
          (round2 (((subject.weight : ℚ) / (tw : ℚ)) * study_hours))
      else
        dict_insert allocation subject.subject_name 0)
    []

/-- `_generate_topic`: the per-subject topic banks, indexed by the running
session counter. -/
def generate_topic (subject_name : String) (session_number : ℕ) : String :=
  let topic_list :=
    if subject_name = "DSA" then
      ["Arrays & Strings", "Linked Lists", "Trees", "Graphs", "DP", "Greedy"]
    else if subject_name = "Aptitude" then
      ["Quantitative", "Logical Reasoning", "Verbal", "Data Interpretation"]
    else if subject_name = "Core CS" then
      ["OS Concepts", "DBMS", "Networks", "OOP"]
    else if subject_name = "Programming" then
      ["Java Basics", "Python", "Problem Solving", "Code Practice"]
    else
      [s!"Topic {session_number + 1}", "Practice", "Concepts", "Problems"]
  topic_list.getD (session_number % topic_list.length) ""

/-- The inner loop of `_create_subject_tasks` for one subject: walk the
day offsets 0‥6 of the week keeping the running session counter, stop
when the session budget is used up, skip Sundays, rotate through the
day's available slots. -/
def create_subject_sessions (cfg : UserConfig) (subject_name : String)
    (num_sessions : ℕ) (week_start : ℤ) :
    List ℤ → ℕ → List Task
  | [], _ => []
  | day_offset :: rest, session_count =>
    if num_sessions ≤ session_count then []
    else
      let current_date := week_start + day_offset
      if current_date % 7 = 6 then
        create_subject_sessions cfg subject_name num_sessions week_start
          rest session_count
      else
        let slots := get_available_slots cfg current_date
        if slots.isEmpty then
          create_subject_sessions cfg subject_name num_sessions week_start
            rest session_count
        else
          let slot := slots.getD (session_count % slots.length) (0, 0)
          { date := current_date
            time := slot.1
            subject := subject_name
            topic := generate_topic subject_name session_count
            type := "study"
            duration_minutes := DEFAULT_SESSION_DURATION } ::
            create_subject_sessions cfg subject_name num_sessions week_start
              rest (session_count + 1)

/-- `_create_subject_tasks`: for each allocation entry with positive hours
whose subject exists, emit `int(hours * 60 / 60)` sessions across the
week. -/
def create_subject_tasks (cfg : UserConfig) (subjects : List Subject)
    (week_start : ℤ) (allocation : List (String × ℚ)) : List Task :=
  allocation.flatMap fun p =>
    let subject_name := p.1
    let hours := p.2
    if hours ≤ 0 then []
    else
      match subjects.find? (fun s => decide (s.subject_name = subject_name)) with
      | none => []
      | some _ =>
        let num_sessions :=
          (⌊hours * 60 / (DEFAULT_SESSION_DURATION : ℚ)⌋).toNat
        create_subject_sessions cfg subject_name num_sessions week_start
          [0, 1, 2, 3, 4, 5, 6] 0

/-- The loop body of `_create_revision_tasks` for one revision day:
a 45-minute "Mixed Revision" in the last slot when several slots are
available. -/
def revision_task_on (cfg : UserConfig) (current_date : ℤ) : List Task :=
  let slots := get_available_slots cfg current_date
  if slots.isEmpty then []
  else
    let revision_slot :=
      if 1 < slots.length then slots.getLastD (0, 0) else slots.headD (0, 0)
    [{ date := current_date
       time := revision_slot.1
       subject := "Mixed Revision"
       topic := "Review weak areas"
       type := "revision"
       duration_minutes := 45 }]

/-- `_create_revision_tasks`: revision tasks on day offsets 2 (Wednesday)
and 5 (Saturday). -/
def create_revision_tasks (cfg : UserConfig) (week_start : ℤ) : List Task :=
  ([2, 5] : List ℤ).flatMap fun day_offset =>
    revision_task_on cfg (week_start + day_offset)

/-- `_create_mock_test_task`: a single 90-minute "Full Mock Test" on day
offset 5 (Saturday), in the second slot when several slots are
available. -/
def create_mock_test_task (cfg : UserConfig) (week_start : ℤ) : List Task :=
  let mock_date := week_start + 5
  let slots := get_available_slots cfg mock_date
  if slots.isEmpty then []
  else
    let mock_slot := if 1 < slots.length then slots.getD 1 (0, 0) else slots.getD 0 (0, 0)
    [{ date := mock_date
       time := mock_slot.1
       subject := "Full Mock Test"
       topic := "Complete assessment"
       type := "mock_test"
       duration_minutes := 90 }]

/-- The final `tasks.sort(key=lambda t: (t["date"], t["time"]))` order. -/
def task_le (t u : Task) : Prop :=
  t.date < u.date ∨ (t.date = u.date ∧ t.time ≤ u.time)

instance : DecidableRel task_le := fun t u =>
  inferInstanceAs (Decidable (t.date < u.date ∨ (t.date = u.date ∧ t.time ≤ u.time)))

/-- `generate_weekly_schedule`: study + revision + mock-test tasks of one
week, sorted by (date, time). -/
def generate_weekly_schedule (cfg : UserConfig) (subjects : List Subject)
    (week_start : ℤ) : List Task :=
  let allocation := distribute_hours cfg subjects
  List.insertionSort task_le
    (create_subject_tasks cfg subjects week_start allocation ++
      create_revision_tasks cfg week_start ++
      create_mock_test_task cfg week_start)

/-- A 14-day range is generated by two consecutive weekly runs of
`generate_weekly_schedule` (the generator itself is weekly). -/
def two_week_schedule (cfg : UserConfig) (subjects : List Subject)
    (start : ℤ) : List Task :=
  generate_weekly_schedule cfg subjects start ++
    generate_weekly_schedule cfg subjects (start + 7)

/-- Sum of the emitted `duration_minutes` on one calendar day. -/
def daily_sum (tasks : List Task) (d : ℤ) : ℕ :=
  ((tasks.filter fun t => decide (t.date = d)).map (·.duration_minutes)).sum

/-- The `avg_score` of `adapt_schedule`: average of the truthy mock
scores of the subject's performance rows, and `0` when there are rows but
no mock scores (`sum(mock_scores) / len(mock_scores) if mock_scores else 0`). -/
def mock_avg (subject_perf : List PerfLog) : ℚ :=
  let mock_scores :=
    (subject_perf.filter fun p => decide (p.mock_score ≠ 0)).map (·.mock_score)
  if mock_scores = [] then 0
  else mock_scores.sum / (mock_scores.length : ℚ)

/-- The per-subject body of `adapt_schedule`: a subject without
performance rows keeps its weight, otherwise the weight moves by the
average mock score (`mock_avg`). -/
def adjust_weight (current_weight : ℤ) (subject_perf : List PerfLog) : ℤ :=
  if subject_perf = [] then current_weight
  else
    let avg_score := mock_avg subject_perf
    if avg_score < 40 then min (current_weight + 1) 3
    else if avg_score < 60 then current_weight
    else if 80 < avg_score then max (current_weight - 1) 1
    else current_weight

/-- `adapt_schedule`: the proposed weight map over the subject list. -/
def adapt_schedule (subjects : List Subject) (performance_data : List PerfLog) :
    List (String × ℤ) :=
  subjects.foldl
    (fun adjustments subject =>
      dict_insert adjustments subject.subject_name
        (adjust_weight subject.weight
          (performance_data.filter fun p => decide (p.subject = subject.subject_name))))
    []

/-- The completion-rate computation of `suggest_focus_areas`
(`(completed_tasks / total_tasks * 100) if total_tasks > 0 else 0`),
over one subject's performance rows.  (The surrounding function only
formats this number into a suggestion string.) -/
def completion_rate (subject_perf : List PerfLog) : ℚ :=
  let total_tasks : ℕ := (subject_perf.map (·.tasks_total)).sum
  let completed_tasks : ℕ := (subject_perf.map (·.tasks_completed)).sum
  if 0 < total_tasks then ((completed_tasks : ℚ) / (total_tasks : ℚ)) * 100
  else 0

/-- Result of `calculate_readiness_score` (the `emoji` field, dead weight
for the algorithm, is omitted). -/
structure ReadinessResult where
  score : ℚ
  level : String
  subject_performance : ℚ
  consistency : ℚ
  mock_tests : ℚ
deriving DecidableEq, Repr

/-- The unrounded weighted total of `calculate_readiness_score`. -/
def readiness_total (subjects : List Subject) (performance_data : List PerfLog)
    (current_streak : ℕ) : ℚ :=
  let avg_subject_perf : ℚ :=
    if subjects = [] then 0
    else (subjects.map (·.performance_score)).sum / (subjects.length : ℚ)
  let consistency_score : ℚ := min ((current_streak : ℚ) * 5) 100
  let mock_perf := performance_data.filter fun p => decide (p.mock_score ≠ 0)
  let avg_mock : ℚ :=
    if mock_perf = [] then 0
    else (mock_perf.map (·.mock_score)).sum / (mock_perf.length : ℚ)
  avg_subject_perf * (60/100) + consistency_score * (25/100) + avg_mock * (15/100)

/-- `calculate_readiness_score`: 60% average subject performance, 25%
streak-based consistency, 15% average mock score, with the
80/60/40 level thresholds. -/
def calculate_readiness_score (subjects : List Subject)
    (performance_data : List PerfLog) (current_streak : ℕ) : ReadinessResult :=
  let avg_subject_perf : ℚ :=
    if subjects = [] then 0
    else (subjects.map (·.performance_score)).sum / (subjects.length : ℚ)
  let consistency_score : ℚ := min ((current_streak : ℚ) * 5) 100
  let mock_perf := performance_data.filter fun p => decide (p.mock_score ≠ 0)
  let avg_mock : ℚ :=
    if mock_perf = [] then 0
    else (mock_perf.map (·.mock_score)).sum / (mock_perf.length : ℚ)
  let total_score :=
    avg_subject_perf * (60/100) + consistency_score * (25/100) + avg_mock * (15/100)
  let level :=
    if 80 ≤ total_score then "Placement Ready"
    else if 60 ≤ total_score then "Almost There"
    else if 40 ≤ total_score then "Building Momentum"
    else "Getting Started"
  { score := round1 total_score
    level := level
    subject_performance := round1 avg_subject_perf
    consistency := round1 consistency_score
    mock_tests := round1 avg_mock }

end StudySched

namespace RoadmapSvc

/-- The three preparation levels (`SUPPORTED_LEVELS`). -/
inductive PrepLevel where
  | beginner
  | intermediate
  | advanced
deriving DecidableEq, Repr

/-- `level_order`: beginner = 0, intermediate = 1, advanced = 2. -/
def level_index : PrepLevel → ℕ
  | .beginner => 0
  | .intermediate => 1
  | .advanced => 2

/-- A topic record as it flows through the `RoadmapGenerator` pipeline
(the plain template fields plus the fields `_apply_company_weights` and
`_assign_order` add; they default to `0` before those stages run). -/
structure TopicRec where
  topic : String
  days : ℕ
  category : String
  level : PrepLevel
  estimated_days : ℕ := 0
  weight : ℚ := 0
  order_sequence : ℕ := 0
deriving DecidableEq, Repr

/-- `COMPANY_WEIGHTS["service"]`. -/
def service_weights : List (String × ℚ) :=
  [("aptitude", 14/10), ("core_cs", 12/10), ("dsa", 9/10), ("programming", 11/10),
   ("system_design", 5/10), ("soft_skills", 13/10), ("web", 8/10),
   ("core_ece", 6/10), ("core_mech", 6/10), ("core_eee", 6/10), ("core_civil", 6/10)]

/-- `COMPANY_WEIGHTS["product"]`. -/
def product_weights : List (String × ℚ) :=
  [("aptitude", 7/10), ("core_cs", 12/10), ("dsa", 15/10), ("programming", 13/10),
   ("system_design", 15/10), ("soft_skills", 1), ("web", 11/10),
   ("core_ece", 4/10), ("core_mech", 4/10), ("core_eee", 4/10), ("core_civil", 4/10)]

/-- `COMPANY_WEIGHTS["core"]`. -/
def core_weights : List (String × ℚ) :=
  [("aptitude", 1), ("core_cs", 8/10), ("dsa", 6/10), ("programming", 7/10),
   ("system_design", 3/10), ("soft_skills", 1), ("web", 3/10),
   ("core_ece", 16/10), ("core_mech", 16/10), ("core_eee", 16/10), ("core_civil", 16/10)]

/-- `COMPANY_WEIGHTS`. -/
def COMPANY_WEIGHTS : List (String × List (String × ℚ)) :=
  [("service", service_weights), ("product", product_weights), ("core", core_weights)]

/-- `COMPANY_WEIGHTS.get(self.company_type, COMPANY_WEIGHTS["service"])`. -/
def weights_for (company_type : String) : List (String × ℚ) :=
  (assoc_lookup COMPANY_WEIGHTS company_type).getD service_weights

/-- `weights.get(t["category"], 1.0)`. -/
def multiplier_for (company_type category : String) : ℚ :=
  (assoc_lookup (weights_for company_type) category).getD 1

/-- `BRANCH_TEMPLATES["CSE"]["beginner"]` (the branch the claims
exercise; the other branch tables are data of the same shape). -/
def cse_beginner : List TopicRec :=
  [{ topic := "Programming Basics (C / Python)", days := 5, category := "programming", level := .beginner },
   { topic := "Variables, Data Types & Operators", days := 3, category := "programming", level := .beginner },
   { topic := "Control Structures & Loops", days := 3, category := "programming", level := .beginner },
   { topic := "Functions & Scope", days := 3, category := "programming", level := .beginner },
   { topic := "Arrays & Strings", days := 4, category := "dsa", level := .beginner },
   { topic := "Linked Lists", days := 4, category := "dsa", level := .beginner },
   { topic := "Basic Aptitude – Numbers & Percentages", days := 3, category := "aptitude", level := .beginner },
   { topic := "Basic Aptitude – Time & Work", days := 3, category := "aptitude", level := .beginner },
   { topic := "Logical Reasoning Fundamentals", days := 3, category := "aptitude", level := .beginner }]

/-- `BRANCH_TEMPLATES["CSE"]["intermediate"]`. -/
def cse_intermediate : List TopicRec :=
  [{ topic := "Stacks & Queues", days := 4, category := "dsa", level := .intermediate },
   { topic := "Recursion & Backtracking", days := 5, category := "dsa", level := .intermediate },
   { topic := "Trees & Binary Search Trees", days := 5, category := "dsa", level := .intermediate },
   { topic := "Hashing & Hash Maps", days := 3, category := "dsa", level := .intermediate },
   { topic := "Sorting & Searching Algorithms", days := 4, category := "dsa", level := .intermediate },
   { topic := "DBMS – SQL, Normalization, Joins", days := 5, category := "core_cs", level := .intermediate },
   { topic := "OS – Processes, Threads, Scheduling", days := 5, category := "core_cs", level := .intermediate },
   { topic := "OOP Concepts (Java / C++)", days := 4, category := "programming", level := .intermediate },
   { topic := "Networking – TCP/IP, OSI Model", days := 4, category := "core_cs", level := .intermediate },
   { topic := "Verbal Ability & Reading Comprehension", days := 3, category := "aptitude", level := .intermediate }]

/-- `BRANCH_TEMPLATES["CSE"]["advanced"]`. -/
def cse_advanced : List TopicRec :=
  [{ topic := "Graphs – BFS, DFS, Shortest Path", days := 6, category := "dsa", level := .advanced },
   { topic := "Dynamic Programming", days := 7, category := "dsa", level := .advanced },
   { topic := "Greedy Algorithms", days := 3, category := "dsa", level := .advanced },
   { topic := "System Design Basics", days := 5, category := "system_design", level := .advanced },
   { topic := "Design Patterns & SOLID Principles", days := 4, category := "system_design", level := .advanced },
   { topic := "Advanced SQL & Query Optimization", days := 3, category := "core_cs", level := .advanced },
   { topic := "Mock Interviews & HR Preparation", days := 5, category := "soft_skills", level := .advanced },
   { topic := "Resume Building & Project Showcase", days := 3, category := "soft_skills", level := .advanced }]

/-- `_load_branch_topics` for branch `"CSE"`: the per-level lists in
level order, each entry tagged with its level. -/
def load_branch_topics_cse : List TopicRec :=
  cse_beginner ++ cse_intermediate ++ cse_advanced

/-- `_apply_company_weights`: look the category multiplier up for the
company type (service table on an unknown type, `1.0` on an unknown
category), drop the topic when the multiplier is below `0.3`, otherwise
set `estimated_days = max(1, round(days * w))`. -/
def apply_company_weights (company_type : String) (topics : List TopicRec) :
    List TopicRec :=
  topics.filterMap fun t =>
    let w := multiplier_for company_type t.category
    if w < 3/10 then none
    else some { t with
      estimated_days := (max 1 (py_round ((t.days : ℚ) * w))).toNat
      weight := w }

/-- `_filter_by_level`: keep topics whose level index is at most the
requester's. -/
def filter_by_level (preparation_level : PrepLevel) (topics : List TopicRec) :
    List TopicRec :=
  topics.filter fun t => decide (level_index t.level ≤ level_index preparation_level)

/-- The sort key relation of `_assign_order`:
`(level_order[level], estimated_days)` compared lexicographically, as a
reflexive total preorder (Python's stable `list.sort`). -/
def topic_key_le (a b : TopicRec) : Prop :=
  level_index a.level < level_index b.level ∨
    (level_index a.level = level_index b.level ∧ a.estimated_days ≤ b.estimated_days)

instance : DecidableRel topic_key_le := fun a b =>
  inferInstanceAs (Decidable (level_index a.level < level_index b.level ∨
    (level_index a.level = level_index b.level ∧ a.estimated_days ≤ b.estimated_days)))

instance : IsTotal TopicRec topic_key_le where
  total a b := by
    unfold topic_key_le
    rcases Nat.lt_trichotomy (level_index a.level) (level_index b.level) with h | h | h
    · exact Or.inl (Or.inl h)
    · rcases Nat.le_total a.estimated_days b.estimated_days with h' | h'
      · exact Or.inl (Or.inr ⟨h, h'⟩)
      · exact Or.inr (Or.inr ⟨h.symm, h'⟩)
    · exact Or.inr (Or.inl h)

instance : IsTrans TopicRec topic_key_le where
  trans a b c hab hbc := by
    unfold topic_key_le at *
    rcases hab with h1 | ⟨h1, h1'⟩ <;> rcases hbc with h2 | ⟨h2, h2'⟩
    · exact Or.inl (h1.trans h2)
    · exact Or.inl (h2 ▸ h1)
    · exact Or.inl (h1 ▸ h2)
    · exact Or.inr ⟨h1.trans h2, h1'.trans h2'⟩

/-- `_assign_order`: stable sort by (level index, estimated days) and
assign `order_sequence = 1..N` along the sorted list. -/
def assign_order (topics : List TopicRec) : List TopicRec :=
  let sorted := List.insertionSort topic_key_le topics
  (sorted.enumFrom 1).map fun p => { p.2 with order_sequence := p.1 }

/-- Result record of `RoadmapGenerator.calculate_readiness`. -/
structure RoadmapReadiness where
  score : ℚ
  level : String
  completion_pct : ℚ
  pace_score : ℚ
deriving DecidableEq, Repr

/-- `calculate_readiness`: 70% completion, 30% pace, with the
80/60/35 level thresholds and the "Not Started" zero-topics guard. -/
def calculate_readiness (total_topics completed_topics total_days elapsed_days : ℕ) :
    RoadmapReadiness :=
  if total_topics = 0 then
    { score := 0, level := "Not Started", completion_pct := 0, pace_score := 0 }
  else
    let completion_pct : ℚ := ((completed_topics : ℚ) / (total_topics : ℚ)) * 100
    let expected_rate : ℚ := (total_topics : ℚ) / (max total_days 1 : ℕ)
    let expected_by_now : ℚ := expected_rate * (elapsed_days : ℚ)
    let pace_score : ℚ :=
      min 100 (((completed_topics : ℚ) / max 1 expected_by_now) * 100)
    let readiness := completion_pct * (70/100) + pace_score * (30/100)
    let level :=
      if 80 ≤ readiness then "Placement Ready"
      else if 60 ≤ readiness then "Almost There"
      else if 35 ≤ readiness then "Building Momentum"
      else "Getting Started"
    { score := round1 readiness
      level := level
      completion_pct := round1 completion_pct
      pace_score := round1 pace_score }

end RoadmapSvc

namespace RoadmapDB

/-- A `roadmap_topics` row (`id`, `order_sequence`, `status`). -/
structure RTopic where
  tid : ℕ
  order_sequence : ℕ
  status : String
deriving DecidableEq, Repr

/-- A `roadmap_milestones` row (`id`, `after_topic_order`, `reached`). -/
structure RMilestone where
  mid : ℕ
  after_topic_order : ℕ
  reached : Bool
deriving DecidableEq, Repr

/-- The rows of one user's latest roadmap. -/
structure RoadmapState where
  topics : List RTopic
  milestones : List RMilestone
deriving DecidableEq, Repr

/-- The `done` count of `_refresh_milestones`: topics with
`order_sequence ≤ threshold AND status = 'completed'`. -/
def done_count (topics : List RTopic) (threshold : ℕ) : ℕ :=
  topics.countP fun t =>
    decide (t.order_sequence ≤ threshold) && decide (t.status = "completed")

/-- The `total` count of `_refresh_milestones`: topics with
`order_sequence ≤ threshold`. -/
def total_count (topics : List RTopic) (threshold : ℕ) : ℕ :=
  topics.countP fun t => decide (t.order_sequence ≤ threshold)

/-- `_refresh_milestones`: set `reached = 1` on every milestone whose
preceding topics are all completed; milestones are never un-reached. -/
def refresh_milestones (st : RoadmapState) : RoadmapState :=
  { st with
    milestones := st.milestones.map fun ms =>
      let done := done_count st.topics ms.after_topic_order
      let total := total_count st.topics ms.after_topic_order
      if 0 < total ∧ total ≤ done ∧ ms.reached = false then
        { ms with reached := true }
      else ms }

/-- `update_roadmap_topic_status`: set the topic's status, then refresh
the milestones. -/
def update_roadmap_topic_status (st : RoadmapState) (topic_id : ℕ)
    (status : String) : RoadmapState :=
  refresh_milestones
    { st with
      topics := st.topics.map fun t =>
        if t.tid = topic_id then { t with status := status } else t }

end RoadmapDB

namespace StudySched

/-- The active-busy-window overlap test the spec describes for the slot
resolver: the college window blocks a candidate only on weekdays, the
work window on any day, both under the half-open overlap test. -/
def overlaps_active_window (cfg : UserConfig) (day_date : ℤ) (s : ℕ × ℕ) : Bool :=
  (decide (day_date % 7 < 5) &&
    (match cfg.college with
     | some (cs, ce) => slots_overlap s.1 s.2 cs ce
     | none => false)) ||
  (match cfg.work with
   | some (ws, we) => slots_overlap s.1 s.2 ws we
   | none => false)

/-- Modelled from the claim (for comparison with the code): the per-day
capacity cap, weekday capacity = daily_hours × 60 minutes (daily_hours
pre-clamped), weekend capacity = min(daily_hours × 1.5, max_daily_hours)
× 60. -/
def claimed_day_capacity (cfg : UserConfig) (d : ℤ) : ℚ :=
  if 5 ≤ d % 7 then min (clamped_daily_hours cfg * (15/10)) MAX_DAILY_HOURS * 60
  else clamped_daily_hours cfg * 60

/-- Modelled from the claim (for comparison with the code): the tier
table the claim asserts for the schedule readiness score, with the
roadmap scorer's `≥ 35` third threshold. -/
def claimed_tier_35 (x : ℚ) : String :=
  if 80 ≤ x then "Placement Ready"
  else if 60 ≤ x then "Almost There"
  else if 35 ≤ x then "Building Momentum"
  else "Getting Started"

/-- The tier table `calculate_readiness_score` actually applies (third
threshold `≥ 40`). -/
def tier_40 (x : ℚ) : String :=
  if 80 ≤ x then "Placement Ready"
  else if 60 ≤ x then "Almost There"
  else if 40 ≤ x then "Building Momentum"
  else "Getting Started"

/-- Test configuration: `daily_hours = 3.0`, no busy windows. -/
def cfg_three : UserConfig := { daily_hours := 3, college := none, work := none }

/-- Test configuration: college window 09:00–17:00, no work window. -/
def cfg_college : UserConfig :=
  { daily_hours := 3, college := some (540, 1020), work := none }

/-- Three test subjects with weights 3, 2, 1. -/
def subjects_321 : List Subject :=
  [{ subject_name := "A", weight := 3, performance_score := 0 },
   { subject_name := "B", weight := 2, performance_score := 0 },
   { subject_name := "C", weight := 1, performance_score := 0 }]

end StudySched

namespace RoadmapSvc

/-- A topic record stripped of its `order_sequence` (used to compare a
roadmap before and after order assignment). -/
def strip_order (t : TopicRec) : TopicRec := { t with order_sequence := 0 }

end RoadmapSvc

namespace RoadmapDB

/-- A one-topic, one-milestone roadmap in its initial state. -/
def c3_state : RoadmapState :=
  { topics := [{ tid := 1, order_sequence := 1, status := "not_started" }],
    milestones := [{ mid := 1, after_topic_order := 1, reached := false }] }

end RoadmapDB

open StudySched RoadmapSvc RoadmapDB

/-! ### Helper lemmas -/

theorem dict_insert_length {α : Type} (l : List (String × α)) (k : String) (v : α) :
    (dict_insert l k v).length ≤ l.length + 1 := by
  induction l with
  | nil => simp [dict_insert]
  | cons p rest ih =>
    obtain ⟨k', v'⟩ := p
    rw [dict_insert]
    split
    · simp
    · simpa using Nat.succ_le_succ ih

theorem dict_insert_values {α : Type} {P : α → Prop} :
    ∀ {l : List (String × α)} {k : String} {v : α},
      (∀ p ∈ l, P p.2) → P v → ∀ p ∈ dict_insert l k v, P p.2 := by
  intro l
  induction l with
  | nil =>
    intro k v _ hv p hp
    simp [dict_insert] at hp
    simp [hp, hv]
  | cons q rest ih =>
    intro k v hl hv p hp
    obtain ⟨k', v'⟩ := q
    rw [dict_insert] at hp
    split at hp
    · rcases List.mem_cons.mp hp with h | h
      · simp [h, hv]
      · exact hl p (List.mem_cons_of_mem _ h)
    · rcases List.mem_cons.mp hp with h | h
      · exact hl p (h ▸ List.mem_cons_self _ _)
      · exact ih (fun q hq => hl q (List.mem_cons_of_mem _ hq)) hv p h

theorem foldl_step_length {β α : Type}
    (step : List (String × α) → β → List (String × α))
    (hstep : ∀ acc b, (step acc b).length ≤ acc.length + 1) :
    ∀ (l : List β) (acc : List (String × α)),
      (l.foldl step acc).length ≤ acc.length + l.length := by
  intro l
  induction l with
  | nil => intro acc; simp
  | cons b bs ih =>
    intro acc
    have h1 := ih (step acc b)
    have h2 := hstep acc b
    simp only [List.foldl_cons, List.length_cons]
    omega

theorem daily_sum_nil (d : ℤ) : daily_sum [] d = 0 := rfl

theorem daily_sum_cons (t : Task) (l : List Task) (d : ℤ) :
    daily_sum (t :: l) d =
      (if t.date = d then t.duration_minutes else 0) + daily_sum l d := by
  unfold daily_sum
  rw [List.filter_cons]
  by_cases h : t.date = d <;> simp [h]

theorem daily_sum_append (l₁ l₂ : List Task) (d : ℤ) :
    daily_sum (l₁ ++ l₂) d = daily_sum l₁ d + daily_sum l₂ d := by
  simp [daily_sum, List.filter_append]

theorem daily_sum_perm {l₁ l₂ : List Task} (h : l₁.Perm l₂) (d : ℤ) :
    daily_sum l₁ d = daily_sum l₂ d :=
  ((h.filter _).map _).sum_eq

theorem daily_sum_eq_zero {l : List Task} {d : ℤ} (h : ∀ t ∈ l, t.date ≠ d) :
    daily_sum l d = 0 := by
  unfold daily_sum
  rw [List.filter_eq_nil_iff.mpr (by simpa using h)]
  rfl

theorem ite_isEmpty_ne_nil {α : Type} (l fb : List α) (hfb : fb ≠ []) :
    (if l.isEmpty then fb else l) ≠ [] := by
  by_cases h : l.isEmpty = true
  · simp [h, hfb]
  · simp only [h, if_false, Bool.false_eq_true]
    intro hl
    exact h (by simp [hl])

theorem get_available_slots_ne_nil (cfg : UserConfig) (d : ℤ) :
    get_available_slots cfg d ≠ [] := by
  rw [get_available_slots]
  dsimp only
  by_cases h0 : cfg.college = none ∧ cfg.work = none
  · simp [h0, DEFAULT_STUDY_SLOTS]
  · simp only [if_neg h0]
    exact ite_isEmpty_ne_nil _ _ (by simp)

theorem mem_create_subject_sessions {cfg : UserConfig} {name : String}
    {n : ℕ} {ws : ℤ} :
    ∀ (offs : List ℤ) (count : ℕ) (t : Task),
      t ∈ create_subject_sessions cfg name n ws offs count →
      (∃ off ∈ offs, t.date = ws + off) ∧ t.duration_minutes = 60 ∧
        t.type = "study" ∧ t.date % 7 ≠ 6 := by
  intro offs
  induction offs with
  | nil =>
    intro count t ht
    simp [create_subject_sessions] at ht
  | cons off rest ih =>
    intro count t ht
    rw [create_subject_sessions] at ht
    dsimp only at ht
    split_ifs at ht with h1 h2 h3
    · simp at ht
    · obtain ⟨⟨o, ho, hd⟩, h60, hty, hm⟩ := ih count t ht
      exact ⟨⟨o, List.mem_cons_of_mem _ ho, hd⟩, h60, hty, hm⟩
    · obtain ⟨⟨o, ho, hd⟩, h60, hty, hm⟩ := ih count t ht
      exact ⟨⟨o, List.mem_cons_of_mem _ ho, hd⟩, h60, hty, hm⟩
    · rcases List.mem_cons.mp ht with h | h
      · subst h
        exact ⟨⟨off, List.mem_cons_self _ _, rfl⟩, rfl, rfl, h2⟩
      · obtain ⟨⟨o, ho, hd⟩, h60, hty, hm⟩ := ih (count + 1) t h
        exact ⟨⟨o, List.mem_cons_of_mem _ ho, hd⟩, h60, hty, hm⟩

theorem daily_sum_sessions_le {cfg : UserConfig} {name : String} {n : ℕ}
    {ws d : ℤ} :
    ∀ (offs : List ℤ), offs.Nodup → ∀ count : ℕ,
      daily_sum (create_subject_sessions cfg name n ws offs count) d ≤ 60 := by
  intro offs
  induction offs with
  | nil =>
    intro _ count
    simp [create_subject_sessions, daily_sum_nil]
  | cons off rest ih =>
    intro hnd count
    obtain ⟨hoff, hnd'⟩ := List.nodup_cons.mp hnd
    rw [create_subject_sessions]
    dsimp only
    split_ifs with h1 h2 h3
    · simp [daily_sum_nil]
    · exact ih hnd' count
    · exact ih hnd' count
    · rw [daily_sum_cons]
      by_cases hd : ws + off = d
      · have hz :
            daily_sum
              (create_subject_sessions cfg name n ws rest (count + 1)) d = 0 := by
          refine daily_sum_eq_zero fun t ht => ?_
          obtain ⟨⟨o, ho, hdt⟩, _, _, _⟩ := mem_create_subject_sessions rest (count + 1) t ht
          rw [hdt, ← hd]
          intro hcon
          have : o = off := by omega
          exact hoff (this ▸ ho)
        rw [hz, hd]
        simp [DEFAULT_SESSION_DURATION]
      · simp only [hd, if_false]
        simpa using ih hnd' (count + 1)

theorem mem_create_subject_tasks {cfg : UserConfig} {subjects : List Subject}
    {ws : ℤ} {alloc : List (String × ℚ)} {t : Task}
    (ht : t ∈ create_subject_tasks cfg subjects ws alloc) :
    t.duration_minutes = 60 ∧ t.type = "study" ∧ t.date % 7 ≠ 6 := by
  unfold create_subject_tasks at ht
  rw [List.mem_flatMap] at ht
  obtain ⟨p, _, ht⟩ := ht
  dsimp only at ht
  split_ifs at ht with h1
  · simp at ht
  · revert ht
    split
    · intro ht; simp at ht
    · intro ht
      obtain ⟨_, h60, hty, hm⟩ := mem_create_subject_sessions _ _ t ht
      exact ⟨h60, hty, hm⟩

theorem daily_sum_create_subject_tasks (cfg : UserConfig)
    (subjects : List Subject) (ws d : ℤ) :
    ∀ alloc : List (String × ℚ),
      daily_sum (create_subject_tasks cfg subjects ws alloc) d ≤
        60 * alloc.length := by
  intro alloc
  induction alloc with
  | nil => simp [create_subject_tasks, daily_sum_nil]
  | cons p ps ih =>
    have hsplit :
        create_subject_tasks cfg subjects ws (p :: ps) =
          (create_subject_tasks cfg subjects ws [p]) ++
            create_subject_tasks cfg subjects ws ps := by
      unfold create_subject_tasks
      simp [List.flatMap_cons]
    rw [hsplit, daily_sum_append]
    have hone : daily_sum (create_subject_tasks cfg subjects ws [p]) d ≤ 60 := by
      unfold create_subject_tasks
      rw [List.flatMap_cons, List.flatMap_nil, List.append_nil]
      dsimp only
      split_ifs with h1
      · simp [daily_sum_nil]
      · split
        · simp [daily_sum_nil]
        · exact daily_sum_sessions_le _ (by decide) 0
    have := ih
    simp only [List.length_cons]
    omega

theorem revision_task_on_eq (cfg : UserConfig) (dd : ℤ) :
    ∃ tm : ℕ,
      revision_task_on cfg dd =
        [{ date := dd, time := tm, subject := "Mixed Revision",
           topic := "Review weak areas", type := "revision",
           duration_minutes := 45 }] := by
  unfold revision_task_on
  dsimp only
  split_ifs with h
  · exact absurd (List.isEmpty_iff.mp h) (get_available_slots_ne_nil cfg dd)
  all_goals exact ⟨_, rfl⟩

theorem create_revision_tasks_eq (cfg : UserConfig) (ws : ℤ) :
    ∃ tm₂ tm₅ : ℕ,
      create_revision_tasks cfg ws =
        [{ date := ws + 2, time := tm₂, subject := "Mixed Revision",
           topic := "Review weak areas", type := "revision",
           duration_minutes := 45 },
         { date := ws + 5, time := tm₅, subject := "Mixed Revision",
           topic := "Review weak areas", type := "revision",
           duration_minutes := 45 }] := by
  obtain ⟨t2, h2⟩ := revision_task_on_eq cfg (ws + 2)
  obtain ⟨t5, h5⟩ := revision_task_on_eq cfg (ws + 5)
  refine ⟨t2, t5, ?_⟩
  unfold create_revision_tasks
  simp [List.flatMap_cons, h2, h5]

theorem create_mock_test_task_eq (cfg : UserConfig) (ws : ℤ) :
    ∃ tm : ℕ,
      create_mock_test_task cfg ws =
        [{ date := ws + 5, time := tm, subject := "Full Mock Test",
           topic := "Complete assessment", type := "mock_test",
           duration_minutes := 90 }] := by
  unfold create_mock_test_task
  dsimp only
  split_ifs with h
  · exact absurd (List.isEmpty_iff.mp h) (get_available_slots_ne_nil cfg (ws + 5))
  all_goals exact ⟨_, rfl⟩

theorem daily_sum_revision_le (cfg : UserConfig) (ws d : ℤ) :
    daily_sum (create_revision_tasks cfg ws) d ≤ 45 := by
  obtain ⟨t2, t5, heq⟩ := create_revision_tasks_eq cfg ws
  rw [heq, daily_sum_cons, daily_sum_cons, daily_sum_nil]
  by_cases h2 : ws + 2 = d <;> by_cases h5 : ws + 5 = d <;> (simp [h2, h5]; try omega)

theorem daily_sum_mock_le (cfg : UserConfig) (ws d : ℤ) :
    daily_sum (create_mock_test_task cfg ws) d ≤ 90 := by
  obtain ⟨tm, heq⟩ := create_mock_test_task_eq cfg ws
  rw [heq, daily_sum_cons, daily_sum_nil]
  by_cases h : ws + 5 = d <;> simp [h]

theorem generate_weekly_schedule_perm (cfg : UserConfig)
    (subjects : List Subject) (ws : ℤ) :
    (generate_weekly_schedule cfg subjects ws).Perm
      (create_subject_tasks cfg subjects ws (distribute_hours cfg subjects) ++
        create_revision_tasks cfg ws ++ create_mock_test_task cfg ws) := by
  unfold generate_weekly_schedule
  exact List.perm_insertionSort _ _

theorem distribute_hours_length (cfg : UserConfig) (subjects : List Subject) :
    (distribute_hours cfg subjects).length ≤ subjects.length := by
  unfold distribute_hours
  dsimp only
  have h :=
    foldl_step_length
      (fun allocation subject =>
        if 0 < total_weight subjects then
          dict_insert allocation subject.subject_name
            (round2 (((subject.weight : ℚ) / (total_weight subjects : ℚ)) *
              (calculate_weekly_hours cfg -
                calculate_weekly_hours cfg * (15/100) - 3/2)))
        else dict_insert allocation subject.subject_name 0)
      (fun acc b => by
        split_ifs <;> exact dict_insert_length _ _ _)
      subjects []
  simpa using h

/-- Claim C1 (amended): on any single day of a generated week the emitted
durations total at most one 60-minute study session per subject plus one
45-minute revision plus one 90-minute mock test; the day's capacity cap
of the claim does not bound this total (see the counterexample). -/
theorem c1_daily_total_bound (cfg : UserConfig) (subjects : List Subject)
    (ws d : ℤ) :
    daily_sum (generate_weekly_schedule cfg subjects ws) d ≤
      60 * subjects.length + 135 := by
  rw [daily_sum_perm (generate_weekly_schedule_perm cfg subjects ws) d]
  rw [daily_sum_append, daily_sum_append]
  have h1 := daily_sum_create_subject_tasks cfg subjects ws d
    (distribute_hours cfg subjects)
  have h2 := daily_sum_revision_le cfg ws d
  have h3 := daily_sum_mock_le cfg ws d
  have h4 := distribute_hours_length cfg subjects
  have h5 : 60 * (distribute_hours cfg subjects).length ≤ 60 * subjects.length :=
    Nat.mul_le_mul_left 60 h4
  omega

/-- Claim C1 (counterexample): with `daily_hours = 3.0` and subject
weights [3, 2, 1], day 3 of the week (a Wednesday, date `2` from a Monday
week start `0`) receives three 60-minute study tasks plus a 45-minute
revision, 225 minutes in total, exceeding the claimed weekday capacity of
180 minutes; the allocations are weekly hour totals, not the per-day
minutes [90, 60, 30]. -/
theorem c1_daily_capacity_ctrex :
    daily_sum (generate_weekly_schedule cfg_three subjects_321 0) 2 = 225 ∧
    claimed_day_capacity cfg_three 2 = 180 ∧
    ¬ ((daily_sum (generate_weekly_schedule cfg_three subjects_321 0) 2 : ℚ) ≤
        claimed_day_capacity cfg_three 2) := by
  have halloc : distribute_hours cfg_three subjects_321 =
      [("A", 451/50), ("B", 301/50), ("C", 301/100)] := by
    norm_num +decide [distribute_hours, calculate_weekly_hours,
      clamped_daily_hours, MAX_DAILY_HOURS, total_weight, round2, py_round,
      dict_insert, cfg_three, subjects_321, -Int.self_sub_floor]
  have htasks : create_subject_tasks cfg_three subjects_321 0
        [("A", 451/50), ("B", 301/50), ("C", 301/100)] =
      create_subject_sessions cfg_three "A" 9 0 [0, 1, 2, 3, 4, 5, 6] 0 ++
        (create_subject_sessions cfg_three "B" 6 0 [0, 1, 2, 3, 4, 5, 6] 0 ++
          (create_subject_sessions cfg_three "C" 3 0 [0, 1, 2, 3, 4, 5, 6] 0 ++
            [])) := by
    norm_num +decide [create_subject_tasks, List.flatMap_cons, List.flatMap_nil,
      DEFAULT_SESSION_DURATION, subjects_321, List.find?, -Int.self_sub_floor]
  have hsum : daily_sum (generate_weekly_schedule cfg_three subjects_321 0) 2 = 225 := by
    rw [daily_sum_perm (generate_weekly_schedule_perm cfg_three subjects_321 0) 2]
    rw [halloc, htasks]
    rw [daily_sum_append, daily_sum_append, daily_sum_append, daily_sum_append,
      daily_sum_append]
    have hA : daily_sum
        (create_subject_sessions cfg_three "A" 9 0 [0, 1, 2, 3, 4, 5, 6] 0) 2 = 60 := by
      decide
    have hB : daily_sum
        (create_subject_sessions cfg_three "B" 6 0 [0, 1, 2, 3, 4, 5, 6] 0) 2 = 60 := by
      decide
    have hC : daily_sum
        (create_subject_sessions cfg_three "C" 3 0 [0, 1, 2, 3, 4, 5, 6] 0) 2 = 60 := by
      decide
    have hR : daily_sum (create_revision_tasks cfg_three 0) 2 = 45 := by decide
    have hM : daily_sum (create_mock_test_task cfg_three 0) 2 = 0 := by decide
    rw [hA, hB, hC, hR, hM, daily_sum_nil]
  have hcap : claimed_day_capacity cfg_three 2 = 180 := by
    norm_num [claimed_day_capacity, clamped_daily_hours, MAX_DAILY_HOURS, cfg_three]
  refine ⟨hsum, hcap, ?_⟩
  rw [hsum, hcap]
  norm_num

theorem mem_generate_weekly_schedule {cfg : UserConfig}
    {subjects : List Subject} {ws : ℤ} {t : Task}
    (ht : t ∈ generate_weekly_schedule cfg subjects ws) :
    (t.type = "study" ∧ t.duration_minutes = 60 ∧ t.date % 7 ≠ 6) ∨
    (t.type = "revision" ∧ t.duration_minutes = 45 ∧
      (t.date = ws + 2 ∨ t.date = ws + 5)) ∨
    (t.type = "mock_test" ∧ t.duration_minutes = 90 ∧
      t.topic = "Complete assessment" ∧ t.date = ws + 5) := by
  have hraw := ((generate_weekly_schedule_perm cfg subjects ws).mem_iff).mp ht
  rcases List.mem_append.mp hraw with h | h
  · rcases List.mem_append.mp h with h' | h'
    · obtain ⟨h60, hty, hm⟩ := mem_create_subject_tasks h'
      exact Or.inl ⟨hty, h60, hm⟩
    · obtain ⟨t2, t5, heq⟩ := create_revision_tasks_eq cfg ws
      rw [heq] at h'
      rcases List.mem_cons.mp h' with h'' | h''
      · subst h''; exact Or.inr (Or.inl ⟨rfl, rfl, Or.inl rfl⟩)
      · rcases List.mem_cons.mp h'' with h3 | h3
        · subst h3; exact Or.inr (Or.inl ⟨rfl, rfl, Or.inr rfl⟩)
        · simp at h3
  · obtain ⟨tm, heq⟩ := create_mock_test_task_eq cfg ws
    rw [heq] at h
    rcases List.mem_cons.mp h with h'' | h''
    · subst h''; exact Or.inr (Or.inr ⟨rfl, rfl, rfl, rfl⟩)
    · simp at h''

theorem week_mock_filter (cfg : UserConfig) (subjects : List Subject) (ws : ℤ) :
    ∃ tm : ℕ,
      ((generate_weekly_schedule cfg subjects ws).filter fun t =>
          decide (t.type = "mock_test")).Perm
        [{ date := ws + 5, time := tm, subject := "Full Mock Test",
           topic := "Complete assessment", type := "mock_test",
           duration_minutes := 90 }] := by
  obtain ⟨tm, hmock⟩ := create_mock_test_task_eq cfg ws
  refine ⟨tm, ?_⟩
  have hp := (generate_weekly_schedule_perm cfg subjects ws).filter
    (fun t => decide (t.type = "mock_test"))
  refine hp.trans ?_
  rw [List.filter_append, List.filter_append]
  have hst : (create_subject_tasks cfg subjects ws
      (distribute_hours cfg subjects)).filter
        (fun t => decide (t.type = "mock_test")) = [] := by
    refine List.filter_eq_nil_iff.mpr fun t ht => ?_
    have h := (mem_create_subject_tasks ht).2.1
    simp [h]
  have hrev : (create_revision_tasks cfg ws).filter
      (fun t => decide (t.type = "mock_test")) = [] := by
    obtain ⟨t2, t5, heq⟩ := create_revision_tasks_eq cfg ws
    rw [heq]
    simp
  rw [hst, hrev, hmock]
  simp

theorem week_revision_filter (cfg : UserConfig) (subjects : List Subject)
    (ws : ℤ) :
    ∃ tm₂ tm₅ : ℕ,
      ((generate_weekly_schedule cfg subjects ws).filter fun t =>
          decide (t.type = "revision")).Perm
        [{ date := ws + 2, time := tm₂, subject := "Mixed Revision",
           topic := "Review weak areas", type := "revision",
           duration_minutes := 45 },
         { date := ws + 5, time := tm₅, subject := "Mixed Revision",
           topic := "Review weak areas", type := "revision",
           duration_minutes := 45 }] := by
  obtain ⟨t2, t5, heq⟩ := create_revision_tasks_eq cfg ws
  refine ⟨t2, t5, ?_⟩
  have hp := (generate_weekly_schedule_perm cfg subjects ws).filter
    (fun t => decide (t.type = "revision"))
  refine hp.trans ?_
  rw [List.filter_append, List.filter_append]
  have hst : (create_subject_tasks cfg subjects ws
      (distribute_hours cfg subjects)).filter
        (fun t => decide (t.type = "revision")) = [] := by
    refine List.filter_eq_nil_iff.mpr fun t ht => ?_
    have h := (mem_create_subject_tasks ht).2.1
    simp [h]
  have hmk : (create_mock_test_task cfg ws).filter
      (fun t => decide (t.type = "revision")) = [] := by
    obtain ⟨tm, hmock⟩ := create_mock_test_task_eq cfg ws
    rw [hmock]
    simp
  rw [hst, hmk, heq]
  simp

/-- Claim C2 (amended): over a 14-day range covered by two consecutive
weekly runs, exactly two mock-test tasks are emitted, on days 6 and 13
(the Saturdays), each of duration 90 with topic "Complete assessment",
and exactly four revision tasks, on days 3, 6, 10 and 13 — not on days
7 and 14 and not on days 3, 6, 9, 12. -/
theorem c2_fortnight_pattern (cfg : UserConfig) (subjects : List Subject)
    (start : ℤ) :
    (((two_week_schedule cfg subjects start).filter fun t =>
        decide (t.type = "mock_test")).map
          (fun t => t.date - start + 1)).Perm [6, 13] ∧
    (((two_week_schedule cfg subjects start).filter fun t =>
        decide (t.type = "revision")).map
          (fun t => t.date - start + 1)).Perm [3, 6, 10, 13] ∧
    (∀ t ∈ two_week_schedule cfg subjects start, t.type = "mock_test" →
      t.duration_minutes = 90 ∧ t.topic = "Complete assessment") ∧
    (∀ t ∈ two_week_schedule cfg subjects start, t.type = "revision" →
      t.duration_minutes = 45) := by
  obtain ⟨m1, hm1⟩ := week_mock_filter cfg subjects start
  obtain ⟨m2, hm2⟩ := week_mock_filter cfg subjects (start + 7)
  obtain ⟨r2, r5, hr1⟩ := week_revision_filter cfg subjects start
  obtain ⟨r9, r12, hr2⟩ := week_revision_filter cfg subjects (start + 7)
  refine ⟨?_, ?_, ?_, ?_⟩
  · rw [two_week_schedule, List.filter_append, List.map_append]
    have h1 := hm1.map (fun t => t.date - start + 1)
    have h2 := hm2.map (fun t => t.date - start + 1)
    refine (h1.append h2).trans ?_
    have e1 : start + 5 - start + 1 = (6 : ℤ) := by ring
    have e2 : start + 7 + 5 - start + 1 = (13 : ℤ) := by ring
    simp [e1, e2]
  · rw [two_week_schedule, List.filter_append, List.map_append]
    have h1 := hr1.map (fun t => t.date - start + 1)
    have h2 := hr2.map (fun t => t.date - start + 1)
    refine (h1.append h2).trans ?_
    have e1 : start + 2 - start + 1 = (3 : ℤ) := by ring
    have e2 : start + 5 - start + 1 = (6 : ℤ) := by ring
    have e3 : start + 7 + 2 - start + 1 = (10 : ℤ) := by ring
    have e4 : start + 7 + 5 - start + 1 = (13 : ℤ) := by ring
    simp [e1, e2, e3, e4]
  · intro t ht hty
    rcases List.mem_append.mp ht with h | h <;>
      rcases mem_generate_weekly_schedule h with h' | h' | h' <;>
        first
          | (exfalso; rw [hty] at h'; simp at h'; done)
          | exact ⟨h'.2.1, h'.2.2.1⟩
  · intro t ht hty
    rcases List.mem_append.mp ht with h | h <;>
      rcases mem_generate_weekly_schedule h with h' | h' | h' <;>
        first
          | (exfalso; rw [hty] at h'; simp at h'; done)
          | exact h'.2.1

/-- Claim C2 (counterexample): over the 14-day range starting at a Monday
week start, the two mock-test tasks fall on days 6 and 13, not on days 7
and 14 (day 7, a Sunday, carries no mock-test task at all), and the
revision days are 3, 6, 10, 13, not 3, 6, 9, 12. -/
theorem c2_fortnight_days_ctrex :
    (((two_week_schedule cfg_three [] 0).filter fun t =>
        decide (t.type = "mock_test")).map (fun t => t.date + 1)) = [6, 13] ∧
    ([6, 13] : List ℤ) ≠ [7, 14] ∧
    ((two_week_schedule cfg_three [] 0).filter fun t =>
        decide (t.type = "mock_test" ∧ t.date + 1 = 7)) = [] ∧
    (((two_week_schedule cfg_three [] 0).filter fun t =>
        decide (t.type = "revision")).map (fun t => t.date + 1)) = [3, 6, 10, 13] := by
  refine ⟨by decide, by decide, by decide, by decide⟩

theorem c2_fortnight_pattern_witness :
    ({ date := 5, time := 840, subject := "Full Mock Test",
       topic := "Complete assessment", type := "mock_test",
       duration_minutes := 90 } : Task).duration_minutes = 90 ∧
    ({ date := 5, time := 840, subject := "Full Mock Test",
       topic := "Complete assessment", type := "mock_test",
       duration_minutes := 90 } : Task).topic = "Complete assessment" := by
  exact (c2_fortnight_pattern cfg_three [] 0).2.2.1
    { date := 5, time := 840, subject := "Full Mock Test",
      topic := "Complete assessment", type := "mock_test",
      duration_minutes := 90 } (by decide) rfl

theorem foldl_dict_insert_value_prop {α : Type} (P : α → Prop)
    {f : Subject → String} {g : List (String × α) → Subject → α} :
    ∀ (l : List Subject) (acc : List (String × α)),
      (∀ p ∈ acc, P p.2) → (∀ (acc' : List (String × α)) (s : Subject), s ∈ l → P (g acc' s)) →
      ∀ p ∈ l.foldl (fun acc s => dict_insert acc (f s) (g acc s)) acc, P p.2 := by
  intro l
  induction l with
  | nil => intro acc hacc _ p hp; exact hacc p hp
  | cons s ss ih =>
    intro acc hacc hg p hp
    rw [List.foldl_cons] at hp
    exact ih (dict_insert acc (f s) (g acc s))
      (dict_insert_values hacc (hg acc s (List.mem_cons_self _ _)))
      (fun acc' s' hs' => hg acc' s' (List.mem_cons_of_mem _ hs')) p hp

/-- Claim C9 (amended): every division is behind an explicit guard —
zero total weight yields all-zero allocations, an empty subject list
yields an empty allocation and zero study tasks (though the week still
contains its revision and mock-test tasks), zero total tasks yields a
zero completion rate, and zero total topics yields the zero "Not
Started" readiness result. -/
theorem c9_zero_guards :
    (∀ (cfg : UserConfig) (subjects : List Subject),
      total_weight subjects = 0 →
      ∀ p ∈ distribute_hours cfg subjects, p.2 = 0) ∧
    (∀ cfg : UserConfig, distribute_hours cfg [] = []) ∧
    (∀ (cfg : UserConfig) (ws : ℤ),
      (generate_weekly_schedule cfg [] ws).countP
        (fun t => decide (t.type = "study")) = 0) ∧
    (∀ perf : List PerfLog, (perf.map (·.tasks_total)).sum = 0 →
      completion_rate perf = 0) ∧
    (∀ completed total_days elapsed : ℕ,
      RoadmapSvc.calculate_readiness 0 completed total_days elapsed =
        { score := 0, level := "Not Started", completion_pct := 0,
          pace_score := 0 }) := by
  refine ⟨?_, ?_, ?_, ?_, ?_⟩
  · intro cfg subjects htw p hp
    rw [distribute_hours] at hp
    rw [htw] at hp
    simp only [lt_self_iff_false, if_false] at hp
    exact foldl_dict_insert_value_prop (fun v => v = 0) subjects [] (by simp)
      (fun acc' s _ => rfl) p hp
  · intro cfg; rfl
  · intro cfg ws
    rw [(generate_weekly_schedule_perm cfg [] ws).countP_eq]
    have h0 : distribute_hours cfg [] = [] := rfl
    rw [h0]
    have h1 : create_subject_tasks cfg [] ws [] = [] := rfl
    rw [h1]
    obtain ⟨t2, t5, hr⟩ := create_revision_tasks_eq cfg ws
    obtain ⟨tm, hm⟩ := create_mock_test_task_eq cfg ws
    rw [hr, hm]
    simp
  · intro perf h
    simp only [completion_rate]
    rw [if_neg (by omega)]
  · intro completed total_days elapsed
    simp [RoadmapSvc.calculate_readiness]

/-- Claim C9 (counterexample): with an empty subject list the weekly
generator still emits three tasks (two revisions and a mock test), not
zero tasks. -/
theorem c9_empty_subjects_ctrex :
    (generate_weekly_schedule cfg_three [] 0).length = 3 ∧ (3 : ℕ) ≠ 0 :=
  ⟨by decide, by decide⟩

theorem c9_zero_guards_witness :
    completion_rate
      [{ subject := "X", mock_score := 0, tasks_total := 0,
         tasks_completed := 0 }] = 0 ∧
    (("Z", (0 : ℚ)).2 = 0) ∧
    (generate_weekly_schedule cfg_three [] 0).countP
      (fun t => decide (t.type = "study")) = 0 := by
  refine ⟨c9_zero_guards.2.2.2.1 _ (by decide), ?_, c9_zero_guards.2.2.1 cfg_three 0⟩
  exact c9_zero_guards.1 cfg_three
    [{ subject_name := "Z", weight := 0, performance_score := 0 }]
    (by decide) ("Z", 0) (by decide)

/-- Claim C10: when the week starts on a Monday, no generated task is
dated on a Sunday — study tasks skip weekday 6 unconditionally, revision
tasks sit on weekdays 2 and 5, the mock test on weekday 5. -/
theorem c10_no_sunday (cfg : UserConfig) (subjects : List Subject) (ws : ℤ)
    (hmon : ws % 7 = 0) :
    ∀ t ∈ generate_weekly_schedule cfg subjects ws, t.date % 7 ≠ 6 := by
  intro t ht
  rcases mem_generate_weekly_schedule ht with h | h | h
  · exact h.2.2
  · rcases h.2.2 with hd | hd <;> rw [hd] <;> omega
  · rw [h.2.2.2]; omega

theorem c10_no_sunday_witness :
    ((generate_weekly_schedule cfg_three subjects_321 0).all
      fun t => decide (t.date % 7 ≠ 6)) = true := by
  rw [List.all_eq_true]
  intro t ht
  simpa using c10_no_sunday cfg_three subjects_321 0 (by decide) t ht

theorem done_le_total (topics : List RTopic) (thr : ℕ) :
    done_count topics thr ≤ total_count topics thr := by
  unfold done_count total_count
  refine List.countP_mono_left fun t _ h => ?_
  simp only [Bool.and_eq_true] at h
  exact h.1

theorem total_le_done_iff (topics : List RTopic) (thr : ℕ) :
    total_count topics thr ≤ done_count topics thr ↔
      ∀ t ∈ topics, t.order_sequence ≤ thr → t.status = "completed" := by
  induction topics with
  | nil => simp [total_count, done_count]
  | cons t ts ih =>
    have hmono := done_le_total ts thr
    unfold total_count done_count at hmono ih ⊢
    rw [List.countP_cons, List.countP_cons]
    by_cases h1 : t.order_sequence ≤ thr
    · by_cases h2 : t.status = "completed"
      · have e1 : (decide (t.order_sequence ≤ thr) &&
            decide (t.status = "completed")) = true := by simp [h1, h2]
        have e2 : decide (t.order_sequence ≤ thr) = true := by simp [h1]
        rw [e1, e2]
        simp only [if_true]
        rw [Nat.add_le_add_iff_right, ih]
        constructor
        · intro hall t' ht' h'
          rcases List.mem_cons.mp ht' with rfl | ht''
          · exact h2
          · exact hall t' ht'' h'
        · intro hall t' ht' h'
          exact hall t' (List.mem_cons_of_mem _ ht') h'
      · have e1 : (decide (t.order_sequence ≤ thr) &&
            decide (t.status = "completed")) = false := by simp [h2]
        have e2 : decide (t.order_sequence ≤ thr) = true := by simp [h1]
        rw [e1, e2]
        simp only [if_true, Bool.false_eq_true, if_false]
        constructor
        · intro hle
          omega
        · intro hall
          exact absurd (hall t (List.mem_cons_self _ _) h1) h2
    · have e1 : (decide (t.order_sequence ≤ thr) &&
          decide (t.status = "completed")) = false := by simp [h1]
      have e2 : decide (t.order_sequence ≤ thr) = false := by simp [h1]
      rw [e1, e2]
      simp only [Bool.false_eq_true, if_false, Nat.add_zero]
      rw [ih]
      constructor
      · intro hall t' ht' h'
        rcases List.mem_cons.mp ht' with rfl | ht''
        · exact absurd h' h1
        · exact hall t' ht'' h'
      · intro hall t' ht' h'
        exact hall t' (List.mem_cons_of_mem _ ht') h'

theorem zip_map_self {α β : Type} (f : α → β) :
    ∀ (l : List α) (p : β × α), p ∈ (l.map f).zip l → p.1 = f p.2 := by
  intro l
  induction l with
  | nil => intro p hp; simp at hp
  | cons x xs ih =>
    intro p hp
    rw [List.map_cons, List.zip_cons_cons] at hp
    rcases List.mem_cons.mp hp with rfl | hp'
    · rfl
    · exact ih p hp'

/-- Claim C3 (amended): after a status mutation a milestone's `reached`
flag is true iff it was already true before the mutation or every topic
with `order_sequence ≤ after_topic_order` now has status `completed` (and
at least one such topic exists).  The flag is monotone: `_refresh_milestones`
only ever sets it, so a flip away from `completed` does not clear it and
only the forward direction of the claimed equivalence holds. -/
theorem c3_milestone_monotone (st : RoadmapState) (topic_id : ℕ)
    (status : String) :
    ∀ p ∈ (update_roadmap_topic_status st topic_id status).milestones.zip
        st.milestones,
      p.1.reached = true ↔
        (p.2.reached = true ∨
          (0 < total_count (update_roadmap_topic_status st topic_id status).topics
              p.2.after_topic_order ∧
            ∀ t ∈ (update_roadmap_topic_status st topic_id status).topics,
              t.order_sequence ≤ p.2.after_topic_order →
                t.status = "completed")) := by
  intro p hp
  set topics' := st.topics.map fun t =>
    if t.tid = topic_id then { t with status := status } else t with htopics
  have hup : update_roadmap_topic_status st topic_id status =
      refresh_milestones { st with topics := topics' } := rfl
  have htp : (update_roadmap_topic_status st topic_id status).topics = topics' := rfl
  rw [hup] at hp
  unfold refresh_milestones at hp
  dsimp only at hp
  have hf := zip_map_self
    (fun ms : RMilestone =>
      if 0 < total_count topics' ms.after_topic_order ∧
          total_count topics' ms.after_topic_order ≤
            done_count topics' ms.after_topic_order ∧ ms.reached = false then
        { ms with reached := true }
      else ms)
    st.milestones p hp
  rw [htp, hf]
  dsimp only
  set ms := p.2
  by_cases hr : ms.reached = true
  · have hcond : ¬ (0 < total_count topics' ms.after_topic_order ∧
        total_count topics' ms.after_topic_order ≤
          done_count topics' ms.after_topic_order ∧ ms.reached = false) := by
      rw [hr]
      simp
    rw [if_neg hcond]
    simp [hr]
  · have hrf : ms.reached = false := by
      cases h : ms.reached
      · rfl
      · exact absurd h hr
    by_cases hc : 0 < total_count topics' ms.after_topic_order ∧
        total_count topics' ms.after_topic_order ≤
          done_count topics' ms.after_topic_order
    · rw [if_pos ⟨hc.1, hc.2, hrf⟩]
      constructor
      · intro _
        exact Or.inr ⟨hc.1, (total_le_done_iff topics' ms.after_topic_order).mp hc.2⟩
      · intro _
        rfl
    · have hcond : ¬ (0 < total_count topics' ms.after_topic_order ∧
          total_count topics' ms.after_topic_order ≤
            done_count topics' ms.after_topic_order ∧ ms.reached = false) := by
        intro h
        exact hc ⟨h.1, h.2.1⟩
      rw [if_neg hcond]
      rw [hrf]
      simp only [Bool.false_eq_true, false_iff, false_or]
      intro h
      exact hc ⟨h.1, (total_le_done_iff topics' ms.after_topic_order).mpr h.2⟩

/-- Claim C3 (counterexample): complete the single topic (the milestone
becomes reached), then flip it back to `not_started`: the milestone stays
reached although not every topic below its threshold is completed, so the
claimed "if and only if" fails after this mutation sequence. -/
theorem c3_milestone_iff_ctrex :
    (update_roadmap_topic_status
        (update_roadmap_topic_status c3_state 1 "completed") 1
        "not_started").milestones =
      [{ mid := 1, after_topic_order := 1, reached := true }] ∧
    (update_roadmap_topic_status
        (update_roadmap_topic_status c3_state 1 "completed") 1
        "not_started").topics =
      [{ tid := 1, order_sequence := 1, status := "not_started" }] ∧
    ¬ (∀ t ∈ (update_roadmap_topic_status
          (update_roadmap_topic_status c3_state 1 "completed") 1
          "not_started").topics,
        t.order_sequence ≤ 1 → t.status = "completed") := by
  refine ⟨by decide, by decide, by decide⟩

theorem c3_milestone_monotone_witness :
    ({ mid := 1, after_topic_order := 1, reached := true } : RMilestone).reached
      = true := by
  have h := c3_milestone_monotone c3_state 1 "completed"
    ({ mid := 1, after_topic_order := 1, reached := true },
     { mid := 1, after_topic_order := 1, reached := false }) (by decide)
  exact h.mpr (Or.inr ⟨by decide, by decide⟩)

/-- Claim C4 (amended): the schedule readiness score is
avg(performance_score)×0.60 + min(streak×5, 100)×0.25 + avg(mock)×0.15,
rounded to one decimal, but its tier table uses `≥ 40` as the third
threshold ("Building Momentum"), not the roadmap scorer's `≥ 35`. -/
theorem c4_readiness_formula (subjects : List Subject)
    (performance_data : List PerfLog) (current_streak : ℕ) :
    (calculate_readiness_score subjects performance_data current_streak).score =
      round1 (readiness_total subjects performance_data current_streak) ∧
    (calculate_readiness_score subjects performance_data current_streak).level =
      tier_40 (readiness_total subjects performance_data current_streak) := by
  constructor <;> rfl

/-- Claim C4 (counterexample): a single subject with performance score 60
and no streak or mock data yields the composite 36; the code labels it
"Getting Started" (36 < 40) while the claimed roadmap thresholds
(`≥ 35`) would label it "Building Momentum". -/
theorem c4_tier_ctrex :
    readiness_total
        [{ subject_name := "X", weight := 2, performance_score := 60 }] [] 0 = 36 ∧
    (calculate_readiness_score
        [{ subject_name := "X", weight := 2, performance_score := 60 }] [] 0).level =
      "Getting Started" ∧
    claimed_tier_35 36 = "Building Momentum" ∧
    (calculate_readiness_score
        [{ subject_name := "X", weight := 2, performance_score := 60 }] [] 0).level ≠
      claimed_tier_35
        (readiness_total
          [{ subject_name := "X", weight := 2, performance_score := 60 }] [] 0) := by
  have h36 : readiness_total
      [{ subject_name := "X", weight := 2, performance_score := 60 }] [] 0 = 36 := by
    norm_num [readiness_total]
  have hlevel : (calculate_readiness_score
      [{ subject_name := "X", weight := 2, performance_score := 60 }] [] 0).level =
      "Getting Started" := by
    have heq : (calculate_readiness_score
        [{ subject_name := "X", weight := 2, performance_score := 60 }] [] 0).level =
        tier_40 (readiness_total
          [{ subject_name := "X", weight := 2, performance_score := 60 }] [] 0) := rfl
    rw [heq, h36]
    norm_num [tier_40]
  have htier : claimed_tier_35 36 = "Building Momentum" := by
    norm_num [claimed_tier_35]
  refine ⟨h36, hlevel, htier, ?_⟩
  rw [hlevel, h36, htier]
  decide

theorem adjust_weight_range {w : ℤ} (h1 : 1 ≤ w) (h3 : w ≤ 3)
    (perf : List PerfLog) :
    1 ≤ adjust_weight w perf ∧ adjust_weight w perf ≤ 3 := by
  unfold adjust_weight
  dsimp only
  split_ifs <;> constructor <;> omega

/-- Claim C5 (amended): a subject with no performance rows keeps its
weight; a subject with performance rows averages its truthy mock scores —
rows without mock scores make the average `0`, so such a subject's weight
becomes min(weight+1, 3) rather than staying unchanged; average < 40
gives min(weight+1, 3), average > 80 gives max(weight−1, 1), averages in
[40, 80] leave the weight unchanged, and all proposed weights stay in
{1, 2, 3} for input weights in {1, 2, 3}. -/
theorem c5_adjust_rules :
    (∀ (w : ℤ) (perf : List PerfLog), perf = [] → adjust_weight w perf = w) ∧
    (∀ (w : ℤ) (perf : List PerfLog), perf ≠ [] → mock_avg perf < 40 →
      adjust_weight w perf = min (w + 1) 3) ∧
    (∀ (w : ℤ) (perf : List PerfLog), perf ≠ [] → 80 < mock_avg perf →
      adjust_weight w perf = max (w - 1) 1) ∧
    (∀ (w : ℤ) (perf : List PerfLog), perf ≠ [] → 40 ≤ mock_avg perf →
      mock_avg perf ≤ 80 → adjust_weight w perf = w) ∧
    (∀ (w : ℤ) (perf : List PerfLog), perf ≠ [] →
      (perf.filter fun p => decide (p.mock_score ≠ 0)) = [] →
      adjust_weight w perf = min (w + 1) 3) ∧
    (∀ (subjects : List Subject) (perf : List PerfLog),
      (∀ s ∈ subjects, 1 ≤ s.weight ∧ s.weight ≤ 3) →
      ∀ p ∈ adapt_schedule subjects perf, 1 ≤ p.2 ∧ p.2 ≤ 3) := by
  refine ⟨?_, ?_, ?_, ?_, ?_, ?_⟩
  · intro w perf h
    simp [adjust_weight, h]
  · intro w perf h havg
    rw [adjust_weight, if_neg h, if_pos havg]
  · intro w perf h havg
    rw [adjust_weight, if_neg h, if_neg (by linarith), if_neg (by linarith),
      if_pos havg]
  · intro w perf h h40 h80
    by_cases h60 : mock_avg perf < 60
    · rw [adjust_weight, if_neg h, if_neg (by linarith), if_pos h60]
    · rw [adjust_weight, if_neg h, if_neg (by linarith), if_neg h60,
        if_neg (by linarith)]
  · intro w perf h hfl
    have havg : mock_avg perf = 0 := by
      unfold mock_avg
      rw [hfl]
      simp
    rw [adjust_weight, if_neg h, if_pos (by rw [havg]; norm_num)]
  · intro subjects perf hw
    refine foldl_dict_insert_value_prop (fun v => 1 ≤ v ∧ v ≤ 3) subjects []
      (by simp) ?_
    intro acc' s hs
    obtain ⟨hs1, hs3⟩ := hw s hs
    exact adjust_weight_range hs1 hs3 _

/-- Claim C5 (counterexample): a subject of weight 1 with one performance
row carrying no mock score (the falsy `0`) is not left unchanged — its
average counts as 0 (< 40) and the proposed weight is 2. -/
theorem c5_no_mock_ctrex :
    adapt_schedule
        [{ subject_name := "X", weight := 1, performance_score := 0 }]
        [{ subject := "X", mock_score := 0, tasks_total := 4,
           tasks_completed := 2 }] = [("X", 2)] ∧
    [("X", (2 : ℤ))] ≠ [("X", 1)] := by
  constructor
  · decide
  · decide

theorem c5_adjust_rules_witness :
    adjust_weight 2 [] = 2 ∧
    adjust_weight 1
      [{ subject := "X", mock_score := 0, tasks_total := 0,
         tasks_completed := 0 }] = 2 ∧
    (1 ≤ (3 : ℤ) ∧ (3 : ℤ) ≤ 3) := by
  refine ⟨c5_adjust_rules.1 2 [] rfl, ?_, ?_⟩
  · have h := c5_adjust_rules.2.2.2.2.1 1
      [{ subject := "X", mock_score := 0, tasks_total := 0,
         tasks_completed := 0 }] (by decide) (by decide)
    rw [h]
    omega
  · exact c5_adjust_rules.2.2.2.2.2
      [{ subject_name := "X", weight := 3, performance_score := 0 }] []
      (by decide) ("X", 3) (by decide)

/-- Claim C6: order assignment sorts stably by (level index, estimated
days) and then numbers the topics 1..N, so the `order_sequence` values
are exactly 1..N with no gaps or repeats, the level indices are
non-decreasing along the sequence, and the topics are a permutation of
the input (ignoring the assigned order). -/
theorem c6_order_assignment (ts : List TopicRec) :
    ((assign_order ts).map (·.order_sequence) = List.range' 1 ts.length) ∧
    List.Pairwise (fun a b => level_index a.level ≤ level_index b.level)
      (assign_order ts) ∧
    ((assign_order ts).map strip_order).Perm (ts.map strip_order) := by
  set sorted := List.insertionSort topic_key_le ts with hsorted
  have hlen : sorted.length = ts.length := List.length_insertionSort _ _
  have hperm : sorted.Perm ts := List.perm_insertionSort _ _
  have hassign : assign_order ts = (sorted.enumFrom 1).map
      (fun p => { p.2 with order_sequence := p.1 }) := rfl
  refine ⟨?_, ?_, ?_⟩
  · rw [hassign, List.map_map]
    have h1 : ((fun t : TopicRec => t.order_sequence) ∘
        fun p : ℕ × TopicRec => { p.2 with order_sequence := p.1 }) =
          Prod.fst := by
      funext p
      rfl
    rw [h1, List.enumFrom_map_fst, hlen]
  · rw [hassign, List.pairwise_map]
    have hs : List.Pairwise topic_key_le sorted := List.sorted_insertionSort _ _
    have hs' : List.Pairwise
        (fun a b : TopicRec => level_index a.level ≤ level_index b.level)
        sorted := by
      refine hs.imp fun hab => ?_
      rcases hab with h | ⟨h, _⟩
      · exact Nat.le_of_lt h
      · exact Nat.le_of_eq h
    have henum : sorted = (sorted.enumFrom 1).map Prod.snd :=
      (List.enumFrom_map_snd 1 sorted).symm
    rw [henum, List.pairwise_map] at hs'
    exact hs'
  · rw [hassign, List.map_map]
    have h2 : (strip_order ∘
        fun p : ℕ × TopicRec => { p.2 with order_sequence := p.1 }) =
          strip_order ∘ Prod.snd := by
      funext p
      rfl
    rw [h2]
    have h3 : List.map (strip_order ∘ Prod.snd) (sorted.enumFrom 1) =
        List.map strip_order sorted := by
      rw [← List.map_map, List.enumFrom_map_snd]
    rw [h3]
    exact hperm.map strip_order

/-- Claim C7: each topic's category multiplier comes from the employer
table (service table on an unknown employer type, multiplier 1.0 on an
unknown category), a topic is kept exactly when its multiplier is not
below 0.3, every kept topic's estimated duration is
max(1, round(base_days × multiplier)), and for employer type "product"
the dsa multiplier 1.5 turns the 4-day "Arrays & Strings" topic into 6
days. -/
theorem c7_company_weighting :
    (∀ (company_type : String) (topics : List TopicRec) (t' : TopicRec),
      t' ∈ apply_company_weights company_type topics ↔
        ∃ t ∈ topics,
          ¬ multiplier_for company_type t.category < 3/10 ∧
            t' = { t with
              estimated_days :=
                (max 1 (py_round ((t.days : ℚ) *
                  multiplier_for company_type t.category))).toNat,
              weight := multiplier_for company_type t.category }) ∧
    multiplier_for "product" "dsa" = 15/10 ∧
    ((apply_company_weights "product" cse_beginner).filter fun t =>
        decide (t.topic = "Arrays & Strings")).map (·.estimated_days) = [6] := by
  refine ⟨?_, by rfl, ?_⟩
  · intro ct ts t'
    rw [apply_company_weights, List.mem_filterMap]
    constructor
    · rintro ⟨t, ht, hf⟩
      dsimp only at hf
      split_ifs at hf with h
      all_goals cases hf
      all_goals exact ⟨t, ht, h, rfl⟩
    · rintro ⟨t, ht, h, rfl⟩
      refine ⟨t, ht, ?_⟩
      dsimp only
      rw [if_neg h]
  · norm_num +decide [apply_company_weights, multiplier_for, weights_for,
      COMPANY_WEIGHTS, product_weights, service_weights, cse_beginner, py_round,
      assoc_lookup, List.filterMap_cons, -Int.self_sub_floor]

/-- Claim C8: the slot resolver keeps exactly the default windows that do
not overlap an active busy window (college on weekdays only, work on any
day, half-open overlap test) and falls back to the single 20:00–22:00
night window when every candidate is excluded; with a 09:00–17:00
college window a Tuesday keeps 3 slots (only 14:00–16:00 is excluded)
and a Saturday keeps all 4. -/
theorem c8_slot_resolver :
    (∀ (cfg : UserConfig) (d : ℤ),
      get_available_slots cfg d =
        (if (DEFAULT_STUDY_SLOTS.filter fun s => !overlaps_active_window cfg d s) = []
         then [(1200, 1320)]
         else DEFAULT_STUDY_SLOTS.filter fun s => !overlaps_active_window cfg d s)) ∧
    get_available_slots cfg_college 1 = [(360, 480), (1080, 1200), (1200, 1320)] ∧
    get_available_slots cfg_college 5 = DEFAULT_STUDY_SLOTS := by
  refine ⟨?_, by decide, by decide⟩
  intro cfg d
  rw [get_available_slots]
  dsimp only
  have hpred : ∀ s : ℕ × ℕ,
      (!((!decide (5 ≤ d % 7) &&
          (match cfg.college with
           | some (cs, ce) => slots_overlap s.1 s.2 cs ce
           | none => false)) ||
        (match cfg.work with
         | some (ws, we) => slots_overlap s.1 s.2 ws we
         | none => false))) = !overlaps_active_window cfg d s := by
    intro s
    unfold overlaps_active_window
    have hwd : (!decide (5 ≤ d % 7)) = decide (d % 7 < 5) := by
      simp [← decide_not, Int.not_le]
    rw [hwd]
  by_cases h0 : cfg.college = none ∧ cfg.work = none
  · rw [if_pos h0]
    have hall : (DEFAULT_STUDY_SLOTS.filter fun s =>
        !overlaps_active_window cfg d s) = DEFAULT_STUDY_SLOTS := by
      refine List.filter_eq_self.mpr fun s _ => ?_
      unfold overlaps_active_window
      rw [h0.1, h0.2]
      simp
    rw [hall, if_neg (by simp [DEFAULT_STUDY_SLOTS])]
  · rw [if_neg h0]
    rw [List.filter_congr fun s _ => hpred s]
    by_cases he : (DEFAULT_STUDY_SLOTS.filter fun s =>
        !overlaps_active_window cfg d s) = []
    · rw [if_pos (by simp [he]), if_pos he]
    · rw [if_neg (by simpa [List.isEmpty_iff] using he), if_neg he]
